import Mathlib

/-!
Shallow embedding of the go-barretenberg cgo bridge (`bindings.go` and the
second, near-identical host-facing file).  The native Barretenberg engine is
opaque: it is modelled as a structure of functions (`Engine`).  Resource
handling across the FFI boundary (C-string allocation/free, releasing the
engine's result buffer and error message) is made observable as a trace of
`Event`s emitted in execution order, so that the ownership claims become
statements about the trace.
-/

namespace BB

/-- The oracle-hash selector is a plain string type in the Go source
(`type OracleHashType string`); nothing constrains its value. -/
abbrev OracleHashType := String

/-- Token constant `HashPoseidon2 OracleHashType = "poseidon2"`. -/
def HashPoseidon2 : OracleHashType := "poseidon2"

/-- Token constant `HashKeccak OracleHashType = "keccak"`. -/
def HashKeccak : OracleHashType := "keccak"

/-- Token constant `HashBlake2s OracleHashType = "blake2s"`. -/
def HashBlake2s : OracleHashType := "blake2s"

/-- `ProofSystemSettings` struct: four fields with fixed json tags, in
declaration order `ipa_accumulation`, `oracle_hash_type`, `disable_zk`,
`optimized_solidity_verifier`. -/
structure ProofSystemSettings where
  IpaAccumulation : Bool
  OracleHashType : OracleHashType
  DisableZk : Bool
  OptimizedSolidityVerifier : Bool
deriving DecidableEq, Repr

/-- `DefaultSettings()` from the source: Poseidon2, everything else off. -/
def DefaultSettings : ProofSystemSettings :=
  { IpaAccumulation := false
    OracleHashType := HashPoseidon2
    DisableZk := false
    OptimizedSolidityVerifier := false }

/-- Go `json` encoding of a boolean. -/
def jsonBool (b : Bool) : String :=
  if b then "true" else "false"

/-- Lower-case hex digit, used by the `\u00XX` escapes of the Go encoder. -/
def hexDigit (n : Nat) : Char :=
  if n < 10 then Char.ofNat (48 + n) else Char.ofNat (87 + n)

/-- Per-character escaping performed by Go's `encoding/json` string encoder
with its default HTML escaping (`"` `\` `\n` `\r` `\t`, other control
characters as `\u00XX`, `<` `>` `&` as `<` `>` `&`, and
U+2028/U+2029); all other characters are passed through unchanged. -/
def escapeChar (c : Char) : String :=
  if c = Char.ofNat 34 then String.mk [Char.ofNat 92, Char.ofNat 34]
  else if c = Char.ofNat 92 then String.mk [Char.ofNat 92, Char.ofNat 92]
  else if c = Char.ofNat 10 then "\\n"
  else if c = Char.ofNat 13 then "\\r"
  else if c = Char.ofNat 9 then "\\t"
  else if c.toNat < 32 then
    String.mk [Char.ofNat 92, 'u', '0', '0', hexDigit (c.toNat / 16), hexDigit (c.toNat % 16)]
  else if c = '<' then "\\u003c"
  else if c = '>' then "\\u003e"
  else if c = Char.ofNat 38 then "\\u0026"
  else if c.toNat = 8232 then "\\u2028"
  else if c.toNat = 8233 then "\\u2029"
  else String.singleton c

/-- Go `json` encoding of a string value: quoted, characters escaped. -/
def jsonString (s : String) : String :=
  "\"" ++ String.join (s.data.map escapeChar) ++ "\""

/-- `json.Marshal` applied to a `ProofSystemSettings` value.  Go emits the
struct fields in declaration order under their json tags, so the encoding is
a fixed template around the four field values. -/
def marshalSettings (s : ProofSystemSettings) : String :=
  "\x7b\"ipa_accumulation\":" ++ jsonBool s.IpaAccumulation ++
  ",\"oracle_hash_type\":" ++ jsonString s.OracleHashType ++
  ",\"disable_zk\":" ++ jsonBool s.DisableZk ++
  ",\"optimized_solidity_verifier\":" ++ jsonBool s.OptimizedSolidityVerifier ++ "\x7d"

/-- `json.Marshal` as the fallible call the Go code makes (`settingsData, err
:= json.Marshal(settings)`).  For this struct type (bools and a string, no
maps, channels, funcs or custom marshalers) Go's marshaller never returns a
non-nil error, so the embedding always returns `ok`. -/
def marshalSettingsE (s : ProofSystemSettings) : Except String String :=
  Except.ok (marshalSettings s)

/-- `ByteBuffer` from the C header: pointer / length / capacity.  A `none`
pointer models NULL; `some bytes` models a pointer to those bytes. -/
structure ByteBuffer where
  ptr : Option (List Nat)
  len : Nat
  cap : Nat
deriving DecidableEq, Repr

/-- `BBResult` from the C header: `ok` flag, nullable error string, data
buffer. -/
structure BBResult where
  ok : Bool
  err : Option String
  data : ByteBuffer
deriving DecidableEq, Repr

/-- Observable resource events at the FFI boundary, in execution order:
`allocCString s` is `C.CString(s)`, `freeCString s` is the matching
`C.free`, `freeErr` is `C.bb_free_err`, `freeBytes` is `C.bb_free_bytes`,
and `callEngine op` marks the dispatch into the native engine. -/
inductive Event where
  | allocCString (s : String)
  | freeCString (s : String)
  | freeErr (msg : String)
  | freeBytes (buf : ByteBuffer)
  | callEngine (op : String)
deriving DecidableEq, Repr

/-- The opaque native engine: one function per exported `bb_*` symbol.  The
bridge makes no assumption about these, so theorems quantify over `Engine`. -/
structure Engine where
  initSrs : String → BBResult
  prove : String → String → String → BBResult
  getVk : String → String → BBResult
  verify : List Nat → List Nat → String → Bool

/-- `resultToBytes`: translate a `BBResult` into Go's `([]byte, error)`.
`Except.error msg` models `(nil, errors.New(msg))`; `Except.ok none` models
`(nil, nil)`; `Except.ok (some bs)` models `(bs, nil)`.  The event list
records the releases the function performs: on a failed result with a
non-NULL message it frees the message after copying it; on a successful
result the deferred `bb_free_bytes` releases the data buffer on both the
empty and non-empty paths. -/
def resultToBytes (r : BBResult) : Except String (Option (List Nat)) × List Event :=
  if r.ok = false then
    match r.err with
    | none => (Except.error "unknown error from backend", [])
    | some msg => (Except.error msg, [Event.freeErr msg])
  else
    if r.data.ptr = none ∨ r.data.len = 0 then
      (Except.ok none, [Event.freeBytes r.data])
    else
      (Except.ok (some ((r.data.ptr.getD []).take r.data.len)), [Event.freeBytes r.data])

/-- `InitSRS`: allocate the bytecode C string (freed by `defer`), call the
engine, translate the result, surface only the error part. -/
def InitSRS (E : Engine) (bytecode : String) : Option String × List Event :=
  let rtb := resultToBytes (E.initSrs bytecode)
  let err := match rtb.1 with
    | Except.error e => some e
    | Except.ok _ => none
  (err, [Event.allocCString bytecode, Event.callEngine "bb_init_srs_from_bytecode"]
        ++ rtb.2 ++ [Event.freeCString bytecode])

/-- `ProveUltraHonk`, generic in the settings marshaller so the
`json.Marshal` error branch of the source (`if err != nil { return nil, err }`)
is a live path of the model.  Allocation of the bytecode and witness
C strings happens before marshalling; on a marshal error the function
returns early and the two `defer`red frees run in LIFO order; otherwise the
settings C string is allocated, the engine is called, the result translated,
and all three frees run in LIFO order. -/
def ProveUltraHonkM (marshal : ProofSystemSettings → Except String String)
    (E : Engine) (bytecode witnessJson : String) (settings : ProofSystemSettings) :
    Except String (Option (List Nat)) × List Event :=
  match marshal settings with
  | Except.error e =>
      (Except.error e,
       [Event.allocCString bytecode, Event.allocCString witnessJson,
        Event.freeCString witnessJson, Event.freeCString bytecode])
  | Except.ok sj =>
      let rtb := resultToBytes (E.prove bytecode witnessJson sj)
      (rtb.1,
       [Event.allocCString bytecode, Event.allocCString witnessJson,
        Event.allocCString sj, Event.callEngine "bb_prove_ultrahonk"]
       ++ rtb.2
       ++ [Event.freeCString sj, Event.freeCString witnessJson, Event.freeCString bytecode])

/-- `ProveUltraHonk` as shipped: the marshaller is Go's `json.Marshal`. -/
def ProveUltraHonk (E : Engine) (bytecode witnessJson : String)
    (settings : ProofSystemSettings) : Except String (Option (List Nat)) × List Event :=
  ProveUltraHonkM marshalSettingsE E bytecode witnessJson settings

/-- `ProveUltraHonkPoseidon`: convenience wrapper calling `ProveUltraHonk`
with `DefaultSettings()`. -/
def ProveUltraHonkPoseidon (E : Engine) (bytecode witnessJson : String) :
    Except String (Option (List Nat)) × List Event :=
  ProveUltraHonk E bytecode witnessJson DefaultSettings

/-- `GetVkUltraHonk`, generic in the settings marshaller (same shape as
`ProveUltraHonkM` without the witness argument). -/
def GetVkUltraHonkM (marshal : ProofSystemSettings → Except String String)
    (E : Engine) (bytecode : String) (settings : ProofSystemSettings) :
    Except String (Option (List Nat)) × List Event :=
  match marshal settings with
  | Except.error e =>
      (Except.error e, [Event.allocCString bytecode, Event.freeCString bytecode])
  | Except.ok sj =>
      let rtb := resultToBytes (E.getVk bytecode sj)
      (rtb.1,
       [Event.allocCString bytecode, Event.allocCString sj,
        Event.callEngine "bb_get_vk_ultrahonk"]
       ++ rtb.2
       ++ [Event.freeCString sj, Event.freeCString bytecode])

/-- `GetVkUltraHonk` as shipped. -/
def GetVkUltraHonk (E : Engine) (bytecode : String) (settings : ProofSystemSettings) :
    Except String (Option (List Nat)) × List Event :=
  GetVkUltraHonkM marshalSettingsE E bytecode settings

/-- `VerifyUltraHonk`, generic in the settings marshaller.  The source first
rejects empty proof or key (`return false`, nothing allocated, no engine
call), then marshals the settings (`return false` on error), then allocates
the settings C string, calls the engine on the borrowed proof/key slices,
and frees the settings string by `defer`. -/
def VerifyUltraHonkM (marshal : ProofSystemSettings → Except String String)
    (E : Engine) (proof vk : List Nat) (settings : ProofSystemSettings) :
    Bool × List Event :=
  if proof.length = 0 ∨ vk.length = 0 then
    (false, [])
  else
    match marshal settings with
    | Except.error _ => (false, [])
    | Except.ok sj =>
        (E.verify proof vk sj,
         [Event.allocCString sj, Event.callEngine "bb_verify_ultrahonk",
          Event.freeCString sj])

/-- `VerifyUltraHonk` as shipped. -/
def VerifyUltraHonk (E : Engine) (proof vk : List Nat) (settings : ProofSystemSettings) :
    Bool × List Event :=
  VerifyUltraHonkM marshalSettingsE E proof vk settings

/-- `BackendPipe BackendType = "pipe"`. -/
def BackendPipe : String := "pipe"

/-- `BackendNative BackendType = "native"`. -/
def BackendNative : String := "native"

/-- Character-level model of Go's `strings.ToLower`: ASCII upper-case maps
down, and U+0130 (the one non-ASCII code point whose Unicode simple
lower-case mapping is an ASCII letter occurring in "pipe") maps to `i`.
Other characters are left unchanged; no other code point lower-cases to a
letter of "pipe", so equality with "pipe" agrees with Go everywhere. -/
def goToLowerChar (c : Char) : Char :=
  if 65 ≤ c.toNat ∧ c.toNat ≤ 90 then Char.ofNat (c.toNat + 32)
  else if c.toNat = 304 then 'i'
  else c

/-- `strings.ToLower` on a whole string. -/
def goToLower (s : String) : String :=
  String.mk (s.data.map goToLowerChar)

/-- `GetBackendType`, as a function of the value of the `BB_BACKEND_TYPE`
environment variable (`os.Getenv` yields `""` when the variable is unset). -/
def GetBackendType (env : String) : String :=
  if goToLower env = "pipe" then BackendPipe else BackendNative

/-- The host-allocated C strings an event trace records as allocated. -/
def csAllocList (evs : List Event) : List String :=
  evs.filterMap fun e =>
    match e with
    | Event.allocCString s => some s
    | _ => none

/-- The host-allocated C strings an event trace records as freed. -/
def csFreeList (evs : List Event) : List String :=
  evs.filterMap fun e =>
    match e with
    | Event.freeCString s => some s
    | _ => none

/-- A concrete engine whose every operation succeeds with an empty buffer
and whose verifier accepts; used to instantiate universally quantified
statements. -/
def okEmptyEngine : Engine :=
  { initSrs := fun _ => { ok := true, err := none, data := { ptr := none, len := 0, cap := 0 } }
    prove := fun _ _ _ => { ok := true, err := none, data := { ptr := none, len := 0, cap := 0 } }
    getVk := fun _ _ => { ok := true, err := none, data := { ptr := none, len := 0, cap := 0 } }
    verify := fun _ _ _ => true }

/-- A concrete engine whose verifier rejects everything; used to exhibit the
"attempted and failed" verification outcome. -/
def rejectAllEngine : Engine :=
  { initSrs := fun _ => { ok := true, err := none, data := { ptr := none, len := 0, cap := 0 } }
    prove := fun _ _ _ => { ok := true, err := none, data := { ptr := none, len := 0, cap := 0 } }
    getVk := fun _ _ => { ok := true, err := none, data := { ptr := none, len := 0, cap := 0 } }
    verify := fun _ _ _ => false }

/-- Settings whose oracle-hash field is none of the three enumerated
tokens. -/
def bogusSettings : ProofSystemSettings :=
  { IpaAccumulation := false
    OracleHashType := "bogus"
    DisableZk := false
    OptimizedSolidityVerifier := false }

/-- A settings marshaller that fails; instantiates the marshal-error branch
of the generic bridge operations. -/
def failingMarshal (_ : ProofSystemSettings) : Except String String :=
  Except.error "boom"

end BB

namespace BB

/-- Helper: the translation of a result envelope performs no C-string
allocation and no C-string free; its events concern only the engine-owned
message and buffer. -/
theorem resultToBytes_cs_events (r : BBResult) :
    csAllocList (resultToBytes r).2 = [] ∧ csFreeList (resultToBytes r).2 = [] := by
  unfold resultToBytes csAllocList csFreeList
  rcases hok : r.ok with _ | _
  · rcases herr : r.err with _ | msg <;> simp
  · by_cases h : r.data.ptr = none ∨ r.data.len = 0 <;> simp [h]

/-- C4 (confirmed): `resultToBytes` performs exactly these releases on every
exit path: when the envelope is an `Err` with a non-null message, the message
is freed exactly once (after its content is copied into the returned error);
when the envelope is `Ok`, the data buffer is freed exactly once, on the
empty-buffer and non-empty-buffer paths alike; when the envelope is an `Err`
with a null message there is nothing native to release and nothing is
released.  The release trace is characterized completely, so no path leaves
an un-released native buffer or message and none releases twice. -/
theorem resultToBytes_release_discipline (r : BBResult) :
    (resultToBytes r).2 =
      if r.ok = true then [Event.freeBytes r.data]
      else
        match r.err with
        | some msg => [Event.freeErr msg]
        | none => [] := by
  unfold resultToBytes
  rcases hok : r.ok with _ | _
  · rcases herr : r.err with _ | msg <;> simp
  · by_cases h : r.data.ptr = none ∨ r.data.len = 0 <;> simp [h]

/-- C6 (confirmed): an `Ok` envelope whose span is empty (null pointer or
zero length) translates to the empty-but-successful host result
`(nil, nil)` — modelled `Except.ok none` — which is distinct from every
failure outcome. -/
theorem resultToBytes_ok_empty_success (r : BBResult)
    (hok : r.ok = true) (hempty : r.data.ptr = none ∨ r.data.len = 0) :
    (resultToBytes r).1 = Except.ok none ∧
    ∀ e : String, (resultToBytes r).1 ≠ Except.error e := by
  unfold resultToBytes
  simp [hok, hempty]

/-- Witness for C6 at the concrete envelope `{ok := true, err := none,
data := {ptr := NULL, len := 0, cap := 0}}`. -/
theorem resultToBytes_ok_empty_success_witness :
    (resultToBytes { ok := true, err := none, data := { ptr := none, len := 0, cap := 0 } }).1
      = Except.ok none :=
  (resultToBytes_ok_empty_success
    { ok := true, err := none, data := { ptr := none, len := 0, cap := 0 } }
    rfl (Or.inl rfl)).1

/-- C8 (confirmed): an `Err` envelope with a non-null message translates to
an error carrying exactly the native message: `errors.New(msg)` with the
string obtained from the handle, unmodified. -/
theorem resultToBytes_err_message_verbatim (r : BBResult) (msg : String)
    (hok : r.ok = false) (herr : r.err = some msg) :
    (resultToBytes r).1 = Except.error msg := by
  unfold resultToBytes
  simp [hok, herr]

/-- Witness for C8 at a concrete envelope carrying the message
"proving failed: bad witness". -/
theorem resultToBytes_err_message_verbatim_witness :
    (resultToBytes { ok := false, err := some "proving failed: bad witness",
                     data := { ptr := none, len := 0, cap := 0 } }).1
      = Except.error "proving failed: bad witness" :=
  resultToBytes_err_message_verbatim
    { ok := false, err := some "proving failed: bad witness",
      data := { ptr := none, len := 0, cap := 0 } }
    "proving failed: bad witness" rfl rfl

end BB

namespace BB

/-- Helper: `csAllocList` distributes over trace concatenation. -/
theorem csAllocList_append (l1 l2 : List Event) :
    csAllocList (l1 ++ l2) = csAllocList l1 ++ csAllocList l2 := by
  unfold csAllocList
  exact List.filterMap_append l1 l2 _

/-- Helper: `csFreeList` distributes over trace concatenation. -/
theorem csFreeList_append (l1 l2 : List Event) :
    csFreeList (l1 ++ l2) = csFreeList l1 ++ csFreeList l2 := by
  unfold csFreeList
  exact List.filterMap_append l1 l2 _

/-- C5 (confirmed): every bridge operation frees exactly the host-allocated
request C strings it allocated, in reverse (LIFO, i.e. `defer`) order, on
every exit path: for an arbitrary engine, an arbitrary marshaller outcome
(so the early return on a settings-encoding failure is covered), and
arbitrary inputs, the freed-C-string list of the trace is the reverse of the
allocated-C-string list for `InitSRS`, `ProveUltraHonk`, `GetVkUltraHonk`
and `VerifyUltraHonk` alike. -/
theorem ops_release_all_request_spans
    (m : ProofSystemSettings → Except String String) (E : Engine)
    (b w : String) (s : ProofSystemSettings) (p v : List Nat) :
    csFreeList (InitSRS E b).2 = (csAllocList (InitSRS E b).2).reverse ∧
    csFreeList (ProveUltraHonkM m E b w s).2 =
      (csAllocList (ProveUltraHonkM m E b w s).2).reverse ∧
    csFreeList (GetVkUltraHonkM m E b s).2 =
      (csAllocList (GetVkUltraHonkM m E b s).2).reverse ∧
    csFreeList (VerifyUltraHonkM m E p v s).2 =
      (csAllocList (VerifyUltraHonkM m E p v s).2).reverse := by
  refine ⟨?_, ?_, ?_, ?_⟩
  · have h := resultToBytes_cs_events (E.initSrs b)
    unfold InitSRS
    simp only [csAllocList_append, csFreeList_append, h.1, h.2]
    simp [csAllocList, csFreeList]
  · rcases hms : m s with e | sj
    · simp [ProveUltraHonkM, hms, csAllocList, csFreeList]
    · have h := resultToBytes_cs_events (E.prove b w sj)
      simp only [ProveUltraHonkM, hms, csAllocList_append, csFreeList_append, h.1, h.2]
      simp [csAllocList, csFreeList]
  · rcases hms : m s with e | sj
    · simp [GetVkUltraHonkM, hms, csAllocList, csFreeList]
    · have h := resultToBytes_cs_events (E.getVk b sj)
      simp only [GetVkUltraHonkM, hms, csAllocList_append, csFreeList_append, h.1, h.2]
      simp [csAllocList, csFreeList]
  · unfold VerifyUltraHonkM
    by_cases hl : p = [] ∨ v = []
    · simp [hl, csAllocList, csFreeList]
    · rcases hms : m s with e | sj <;>
        simp [List.length_eq_zero, hl, hms, csAllocList, csFreeList]

/-- C3 (confirmed): with a zero-length proof or a zero-length key,
`VerifyUltraHonk` returns `false` with an empty event trace — in particular
no `callEngine` event, i.e. the native engine is never invoked — for every
engine and every settings value. -/
theorem VerifyUltraHonk_empty_input_false (E : Engine) (p v : List Nat)
    (s : ProofSystemSettings) (h : p.length = 0 ∨ v.length = 0) :
    (VerifyUltraHonk E p v s).1 = false ∧
    ∀ op : String, Event.callEngine op ∉ (VerifyUltraHonk E p v s).2 := by
  have h' : p = [] ∨ v = [] := by
    simpa [List.length_eq_zero] using h
  unfold VerifyUltraHonk VerifyUltraHonkM
  simp [List.length_eq_zero, h']

/-- Witness for C3: empty proof, non-empty key, accepting engine — still
`false`. -/
theorem VerifyUltraHonk_empty_input_false_witness :
    (VerifyUltraHonk okEmptyEngine [] [1] DefaultSettings).1 = false :=
  (VerifyUltraHonk_empty_input_false okEmptyEngine [] [1] DefaultSettings (Or.inl rfl)).1

/-- C2 counterexample: when the settings marshaller fails,
`VerifyUltraHonk` evaluates to plain `(false, [])` — the very same boolean
`false` (and the same observable outcome of its `Bool` result channel) that
an attempted-and-rejected verification produces — not an error distinct from
`false`; the function's return type has no error component at all. -/
theorem VerifyUltraHonk_encoding_failure_not_distinct :
    VerifyUltraHonkM failingMarshal rejectAllEngine [1] [1] DefaultSettings = (false, []) ∧
    (VerifyUltraHonkM failingMarshal rejectAllEngine [1] [1] DefaultSettings).1 =
      (VerifyUltraHonkM marshalSettingsE rejectAllEngine [1] [1] DefaultSettings).1 := by
  exact ⟨rfl, rfl⟩

/-- C2 (corrected): when the settings fail to encode, `VerifyUltraHonk`
returns the silent boolean `false` with an empty trace (no allocation and no
engine invocation); it does not report an error distinct from the `false`
result. -/
theorem VerifyUltraHonk_encoding_failure_silent_false
    (m : ProofSystemSettings → Except String String) (E : Engine)
    (p v : List Nat) (s : ProofSystemSettings) (e : String)
    (henc : m s = Except.error e) :
    VerifyUltraHonkM m E p v s = (false, []) := by
  unfold VerifyUltraHonkM
  by_cases hl : p = [] ∨ v = []
  · simp [hl]
  · simp [List.length_eq_zero, hl, henc]

/-- Witness for the corrected C2 at the concrete failing marshaller. -/
theorem VerifyUltraHonk_encoding_failure_silent_false_witness :
    VerifyUltraHonkM failingMarshal okEmptyEngine [1] [1] DefaultSettings = (false, []) :=
  VerifyUltraHonk_encoding_failure_silent_false failingMarshal okEmptyEngine
    [1] [1] DefaultSettings "boom" rfl

/-- C1 counterexample: for settings whose oracle-hash field is the
unrecognized token "bogus", the settings-encoding step succeeds and its
output contains the token verbatim, and both `ProveUltraHonk` and
`GetVkUltraHonk` complete without any error being returned to the caller
(with an engine that accepts the request): the encoding step does not fail
closed. -/
theorem unknown_oracle_token_not_rejected :
    marshalSettingsE bogusSettings =
      Except.ok ("\x7b\"ipa_accumulation\":false,\"oracle_hash_type\":\"" ++ "bogus" ++
        "\",\"disable_zk\":false,\"optimized_solidity_verifier\":false\x7d") ∧
    (ProveUltraHonk okEmptyEngine "bc" "w" bogusSettings).1 = Except.ok none ∧
    (GetVkUltraHonk okEmptyEngine "bc" bogusSettings).1 = Except.ok none := by
  refine ⟨congrArg Except.ok (by decide), rfl, rfl⟩

/-- C1 (corrected): the settings-encoding step of `ProveUltraHonk` and
`GetVkUltraHonk` never fails, for every settings value including those whose
oracle-hash field is outside the enumerated token set; the emitted encoding
is `marshalSettings s` (which carries the oracle-hash string as given), and
both operations always proceed to the engine, their outcome being exactly
the translation of the engine's result envelope. -/
theorem settings_encoding_total_passthrough (s : ProofSystemSettings) (E : Engine)
    (b w : String) :
    marshalSettingsE s = Except.ok (marshalSettings s) ∧
    (ProveUltraHonk E b w s).1 = (resultToBytes (E.prove b w (marshalSettings s))).1 ∧
    (GetVkUltraHonk E b s).1 = (resultToBytes (E.getVk b (marshalSettings s))).1 :=
  ⟨rfl, rfl, rfl⟩

end BB

namespace BB

/-- C7 (confirmed): the settings encoding is deterministic — encoding the
same settings value twice yields a byte-identical transport string — and the
default settings value (IPA accumulation off, Poseidon2 oracle, ZK enabled,
generic verifier) encodes to the fixed canonical byte string `S0`. -/
theorem settings_encoding_deterministic (s t : ProofSystemSettings) (h : s = t) :
    marshalSettingsE s = marshalSettingsE t ∧
    marshalSettingsE DefaultSettings =
      Except.ok ("\x7b\"ipa_accumulation\":false,\"oracle_hash_type\":\"poseidon2\"," ++
        "\"disable_zk\":false,\"optimized_solidity_verifier\":false\x7d") := by
  subst h
  exact ⟨rfl, congrArg Except.ok (by decide)⟩

/-- Witness for C7: both encodings of `DefaultSettings` coincide. -/
theorem settings_encoding_deterministic_witness :
    marshalSettingsE DefaultSettings = marshalSettingsE DefaultSettings ∧
    marshalSettingsE DefaultSettings =
      Except.ok ("\x7b\"ipa_accumulation\":false,\"oracle_hash_type\":\"poseidon2\"," ++
        "\"disable_zk\":false,\"optimized_solidity_verifier\":false\x7d") :=
  settings_encoding_deterministic DefaultSettings DefaultSettings rfl

/-- C9 (confirmed): `GetBackendType` selects the pipe backend exactly when
the (lower-cased, i.e. case-insensitively compared) environment value equals
"pipe"; every other value — the empty string of an unset variable and any
unrecognized selector included — silently yields the native backend, never
an error. -/
theorem GetBackendType_pipe_iff (v : String) :
    (GetBackendType v = BackendPipe ↔ goToLower v = goToLower "pipe") ∧
    (goToLower v ≠ goToLower "pipe" → GetBackendType v = BackendNative) ∧
    GetBackendType "" = BackendNative := by
  have hp : goToLower "pipe" = "pipe" := by decide
  have hne : BackendNative ≠ BackendPipe := by decide
  have hempty : GetBackendType "" = BackendNative := by decide
  rw [hp]
  by_cases h : goToLower v = "pipe"
  · exact ⟨by simp [GetBackendType, h], fun hc => absurd h hc, hempty⟩
  · have hv : GetBackendType v = BackendNative := by
      simp [GetBackendType, h]
    exact ⟨⟨fun hbe => absurd (hv.symm.trans hbe) hne, fun hc => absurd hc h⟩,
           fun _ => hv, hempty⟩

/-- Witness for C9: "PIPE" selects the pipe backend case-insensitively;
"worker" is unrecognized and falls back to the native backend. -/
theorem GetBackendType_pipe_iff_witness :
    GetBackendType "PIPE" = BackendPipe ∧ GetBackendType "worker" = BackendNative :=
  ⟨(GetBackendType_pipe_iff "PIPE").1.mpr (by decide),
   (GetBackendType_pipe_iff "worker").2.1 (by decide)⟩

/-- C10 (confirmed): `ProveUltraHonkPoseidon` returns exactly
`ProveUltraHonk` applied to the same bytecode and witness with
`DefaultSettings`, and `DefaultSettings` is the record with IPA accumulation
off, oracle hash "poseidon2", ZK enabled and the generic verifier. -/
theorem ProveUltraHonkPoseidon_is_default (E : Engine) (b w : String) :
    ProveUltraHonkPoseidon E b w = ProveUltraHonk E b w DefaultSettings ∧
    DefaultSettings =
      { IpaAccumulation := false
        OracleHashType := "poseidon2"
        DisableZk := false
        OptimizedSolidityVerifier := false } :=
  ⟨rfl, rfl⟩

end BB
